import Mathlib

/-!
Verification of the inventory-reservation service (Go, `main.go` / `cors.go`)
against its natural-language specification.

The store table `inventories` is embedded as an association list from
`product_id` to `quantity` (the `updated_at` column is written but never read
by any logic modelled here, so it is omitted).  SQL semantics are mirrored
faithfully: `SELECT ... WHERE product_id=$1 ... Scan` yields the first matching
row or an error, and `UPDATE ... WHERE product_id=$1` mutates every matching
row.  Store round-trips can fail for infrastructure reasons; those failures are
injected as explicit boolean parameters, since the Go code observes them only
as a non-nil `err`.
-/

namespace InventoryService

/-- A row of the `inventories` table: `(product_id, quantity)`. -/
abbrev Store := List (Int × Int)

/-- `SELECT quantity FROM inventories WHERE product_id = $1` followed by
`Scan`: the first matching row's quantity, or `none` when no row matches
(the Go code sees this as a non-nil `err`). -/
def storeGet : Store → Int → Option Int
  | [], _ => none
  | (k, v) :: t, pid => if k = pid then some v else storeGet t pid

/-- `UPDATE inventories SET quantity = quantity - $1 WHERE product_id=$2`:
decrements every matching row unconditionally (this is the write statement in
`consumeOrderCreated`, line 141-143 of `main.go`). -/
def updateDec : Store → Int → Int → Store
  | [], _, _ => []
  | (k, v) :: t, pid, amt =>
      (if k = pid then (k, v - amt) else (k, v)) :: updateDec t pid amt

/-- `UPDATE inventories SET quantity = $1, updated_at = $2 WHERE
product_id = $3`: sets every matching row's quantity (the write statement of
the HTTP `updateInventory` handler). -/
def storeSetQuantity : Store → Int → Int → Store
  | [], _, _ => []
  | (k, v) :: t, pid, q =>
      (if k = pid then (k, q) else (k, v)) :: storeSetQuantity t pid q

/-- `OrderCreatedEvent` from `main.go`.  `Total` is a `float64` in the source;
it is never read by any logic in the repository, so its numeric type is
irrelevant and it is embedded as `Int`. -/
structure OrderCreatedEvent where
  orderID : Int
  userID : Int
  productID : Int
  quantity : Int
  total : Int
  deriving Repr, DecidableEq

/-- `InventoryReservedEvent` from `main.go` (used for both outcome topics);
`status` is a plain string in the source, `"RESERVED"` or `"FAILED"`. -/
structure InventoryReservedEvent where
  orderID : Int
  status : String
  message : String
  deriving Repr, DecidableEq

/-- The event record built by `publishInventoryReserved`:
`{OrderID: orderID, Status: "RESERVED", Message: message}`. -/
def publishInventoryReserved (orderID : Int) (message : String) :
    InventoryReservedEvent :=
  ⟨orderID, "RESERVED", message⟩

/-- The event record built by `publishInventoryFailed`:
`{OrderID: orderID, Status: "FAILED", Message: message}`. -/
def publishInventoryFailed (orderID : Int) (message : String) :
    InventoryReservedEvent :=
  ⟨orderID, "FAILED", message⟩

/-- Observable effects of one iteration of `consumeOrderCreated` after a
successful deserialization: the resulting store, whether the decrementing
`UPDATE` committed (`db.Exec` ran and returned no error), and the single
outcome event handed to the outcome publisher. -/
structure IterEffects where
  store : Store
  committed : Bool
  outcome : InventoryReservedEvent
  deriving Repr, DecidableEq

/-- One iteration of the consumer loop in `consumeOrderCreated`
(`main.go` lines 128-154), starting from a successfully deserialized
`OrderCreatedEvent`.  `selectFails` (resp. `updateFails`) injects an
infrastructure failure of the `SELECT` (resp. the `UPDATE`) round-trip;
the Go code observes either only as a non-nil `err`.  A failed `SELECT`
is indistinguishable from a missing row, so it takes the
`"Product not found"` branch, exactly as the source does. -/
def processEvent (s : Store) (e : OrderCreatedEvent)
    (selectFails updateFails : Bool) : IterEffects :=
  match (if selectFails then none else storeGet s e.productID) with
  | none => ⟨s, false, publishInventoryFailed e.orderID "Product not found"⟩
  | some quantity =>
      if quantity ≥ e.quantity then
        if updateFails then
          ⟨s, false, publishInventoryFailed e.orderID "Cannot reserve inventory"⟩
        else
          ⟨updateDec s e.productID e.quantity, true,
            publishInventoryReserved e.orderID "Reserved successfully"⟩
      else
        ⟨s, false, publishInventoryFailed e.orderID "Not enough stock"⟩

/-- The reservation tail of one iteration after the `SELECT` has already
returned `quantity`: the in-memory comparison followed by the unconditional
decrementing `UPDATE` (`main.go` lines 139-153, no injected failures).
Splitting the iteration at this point exposes the two separate store
round-trips of the source. -/
def reserveAfterRead (s : Store) (e : OrderCreatedEvent) (quantity : Int) :
    Store × InventoryReservedEvent :=
  if quantity ≥ e.quantity then
    (updateDec s e.productID e.quantity,
      publishInventoryReserved e.orderID "Reserved successfully")
  else
    (s, publishInventoryFailed e.orderID "Not enough stock")

/-- Interleaved execution of two reservation iterations in which both
`SELECT`s happen before either `UPDATE` — the check-then-update race the
source's two-round-trip structure admits.  Each iteration follows the code of
`consumeOrderCreated` exactly: read, compare the stale value in process
memory, then decrement unconditionally. -/
def raceBothReadFirst (s : Store) (e1 e2 : OrderCreatedEvent) :
    Store × InventoryReservedEvent × InventoryReservedEvent :=
  match storeGet s e1.productID, storeGet s e2.productID with
  | some q1, some q2 =>
      let r1 := reserveAfterRead s e1 q1
      let r2 := reserveAfterRead r1.1 e2 q2
      (r2.1, r1.2, r2.2)
  | none, some q2 =>
      let r2 := reserveAfterRead s e2 q2
      (r2.1, publishInventoryFailed e1.orderID "Product not found", r2.2)
  | some q1, none =>
      let r1 := reserveAfterRead s e1 q1
      (r1.1, r1.2, publishInventoryFailed e2.orderID "Product not found")
  | none, none =>
      (s, publishInventoryFailed e1.orderID "Product not found",
        publishInventoryFailed e2.orderID "Product not found")

/-- Request body of the HTTP create/update handlers (`Inventory` in
`main.go`). -/
structure Inventory where
  productID : Int
  quantity : Int
  deriving Repr, DecidableEq

/-- Store effect of the HTTP `PUT /inventory/{product_id}` handler
(`updateInventory`, `main.go` lines 72-87): sets the quantity of the row
named by the URL variable to the request body's quantity, with no
validation (the body's own `product_id` field is ignored by the SQL, as in
the source). -/
def updateInventory (s : Store) (productID : Int) (inv : Inventory) : Store :=
  storeSetQuantity s productID inv.quantity

/-- Store effect of the HTTP `POST /inventory` handler (`createInventory`,
`main.go` lines 56-70): `INSERT INTO inventories (product_id, quantity,
updated_at) VALUES ...`, i.e. a new row with the request body's values, with
no validation. -/
def createInventory (s : Store) (inv : Inventory) : Store :=
  s ++ [(inv.productID, inv.quantity)]

/-- Response body of the HTTP `GET /inventory/{product_id}` handler:
`{"available": quantity > 0, "quantity": quantity}`. -/
structure GetInventoryResponse where
  available : Bool
  quantity : Int
  deriving Repr, DecidableEq

/-- The HTTP `GET /inventory/{product_id}` handler (`getInventory`,
`main.go` lines 39-54): `none` models the 404 "Product not found" branch. -/
def getInventory (s : Store) (productID : Int) : Option GetInventoryResponse :=
  match storeGet s productID with
  | none => none
  | some q => some ⟨decide (q > 0), q⟩

/-- The caller-visible result of running `publishInventoryReserved` /
`publishInventoryFailed` in the source: the record handed to the Kafka
writer.  The writer's error (`WriteMessages`'s return value) is assigned to
the blank identifier and the function returns nothing, which is modelled by
the error channel `writeResult` not contributing to the result. -/
structure PublishRun where
  written : InventoryReservedEvent
  deriving Repr, DecidableEq

/-- Full run of `publishInventoryReserved` (`main.go` lines 172-176):
builds the RESERVED event, marshals it and calls `WriteMessages`, whose
result `writeResult` is discarded (`_ = writer.WriteMessages(...)`); the
function has no return value, so nothing of the error reaches the caller. -/
def publishInventoryReservedRun (orderID : Int) (message : String)
    (writeResult : Except String Unit) : PublishRun :=
  let event := publishInventoryReserved orderID message
  let _ := writeResult
  ⟨event⟩

/-- Full run of `publishInventoryFailed` (`main.go` lines 178-182), same
shape as `publishInventoryReservedRun`: the write error is discarded. -/
def publishInventoryFailedRun (orderID : Int) (message : String)
    (writeResult : Except String Unit) : PublishRun :=
  let event := publishInventoryFailed orderID message
  let _ := writeResult
  ⟨event⟩

/-- Invariant of §3 of the spec: every committed quantity is non-negative. -/
def storeNonneg (s : Store) : Prop := ∀ p ∈ s, 0 ≤ p.2

instance (s : Store) : Decidable (storeNonneg s) := by
  unfold storeNonneg; infer_instance

/-- `product_id` is the key of the `inventories` table: no two rows share
it. -/
def keysNodup (s : Store) : Prop := (s.map Prod.fst).Nodup

instance (s : Store) : Decidable (keysNodup s) := by
  unfold keysNodup; infer_instance

end InventoryService

namespace InventoryService

theorem storeGet_updateDec_self (s : Store) (pid a : Int) :
    storeGet (updateDec s pid a) pid = (storeGet s pid).map (fun q => q - a) := by
  induction s with
  | nil => rfl
  | cons hd t ih =>
      obtain ⟨k, v⟩ := hd
      by_cases hk : k = pid
      · subst hk
        simp only [updateDec, if_true]
        simp [storeGet]
      · simp only [updateDec]
        rw [if_neg hk]
        simp only [storeGet, if_neg hk]
        exact ih

theorem updateDec_of_not_mem (s : Store) (pid a : Int)
    (h : pid ∉ s.map Prod.fst) : updateDec s pid a = s := by
  induction s with
  | nil => rfl
  | cons hd t ih =>
      obtain ⟨k, v⟩ := hd
      simp only [List.map_cons, List.mem_cons] at h
      push_neg at h
      have hk : ¬ k = pid := fun hkp => h.1 hkp.symm
      simp only [updateDec, if_neg hk, ih h.2]

theorem storeNonneg_updateDec (s : Store) (pid a Q : Int)
    (hn : storeNonneg s) (hk : keysNodup s)
    (hget : storeGet s pid = some Q) (hQ : a ≤ Q) :
    storeNonneg (updateDec s pid a) := by
  induction s with
  | nil => simp [updateDec, storeNonneg]
  | cons hd t ih =>
      obtain ⟨k, v⟩ := hd
      simp only [keysNodup, List.map_cons, List.nodup_cons] at hk
      by_cases hkp : k = pid
      · subst hkp
        have hvQ : v = Q := by simpa [storeGet] using hget
        subst hvQ
        intro p hp
        simp only [updateDec, if_true] at hp
        rw [updateDec_of_not_mem t k a hk.1] at hp
        simp only [List.mem_cons] at hp
        rcases hp with hp | hp
        · subst hp; simpa using sub_nonneg.mpr hQ
        · exact hn p (List.mem_cons_of_mem _ hp)
      · simp only [storeGet, if_neg hkp] at hget
        intro p hp
        simp only [updateDec, if_neg hkp, List.mem_cons] at hp
        rcases hp with hp | hp
        · subst hp; exact hn (k, v) (List.mem_cons_self _ _)
        · exact ih (fun q hq => hn q (List.mem_cons_of_mem _ hq)) hk.2 hget p hp

end InventoryService

namespace InventoryService

/-- Claim C1: for every successfully deserialized OrderCreatedEvent processed
by one iteration of the consumer loop, exactly one outcome event carrying that
event's orderID is handed to the outcome publisher, its status is RESERVED if
and only if the stock decrement for that event committed, and the store after
the iteration reflects exactly that: the decremented store when the decrement
committed, the unchanged store otherwise. -/
theorem c1_outcome_correspondence (s : Store) (e : OrderCreatedEvent)
    (selectFails updateFails : Bool) :
    (processEvent s e selectFails updateFails).outcome.orderID = e.orderID ∧
    ((processEvent s e selectFails updateFails).outcome.status = "RESERVED" ↔
      (processEvent s e selectFails updateFails).committed = true) ∧
    (processEvent s e selectFails updateFails).store =
      (if (processEvent s e selectFails updateFails).committed = true then
        updateDec s e.productID e.quantity else s) := by
  unfold processEvent
  cases selectFails with
  | true =>
      simp [publishInventoryFailed]
  | false =>
      cases hg : storeGet s e.productID with
      | none => simp [publishInventoryFailed]
      | some q =>
          by_cases hq : q ≥ e.quantity
          · cases updateFails with
            | true => simp [hq, publishInventoryFailed]
            | false => simp [hq, publishInventoryReserved]
          · simp [hq, publishInventoryFailed]

end InventoryService

namespace InventoryService

/-- Claim C2 counterexample: with one unit of stock for product 1 and two
order events each requesting one unit, the interleaving in which both
iterations read before either writes makes BOTH reservations succeed and
drives the stored quantity to -1 — possible precisely because the source's
mutation is a separate read followed by an unconditional decrement, not a
single atomic conditional update. -/
theorem c2_counterexample :
    (raceBothReadFirst [((1 : Int), (1 : Int))]
        ⟨101, 7, 1, 1, 0⟩ ⟨102, 8, 1, 1, 0⟩).2.1.status = "RESERVED" ∧
    (raceBothReadFirst [((1 : Int), (1 : Int))]
        ⟨101, 7, 1, 1, 0⟩ ⟨102, 8, 1, 1, 0⟩).2.2.status = "RESERVED" ∧
    storeGet (raceBothReadFirst [((1 : Int), (1 : Int))]
        ⟨101, 7, 1, 1, 0⟩ ⟨102, 8, 1, 1, 0⟩).1 1 = some (-1) := by
  decide

/-- Claim C2 amended: the reservation's stock mutation is NOT a single atomic
conditional update; it is a separate `SELECT` of the quantity followed by an
unconditional decrementing `UPDATE`, so whenever two reservations for one
remaining unit interleave with both reads before either write, both succeed
and the committed quantity becomes -1. -/
theorem c2_amended_race_both_succeed (s : Store) (p : Int)
    (e1 e2 : OrderCreatedEvent)
    (h1p : e1.productID = p) (h2p : e2.productID = p)
    (h1q : e1.quantity = 1) (h2q : e2.quantity = 1)
    (hs : storeGet s p = some 1) :
    (raceBothReadFirst s e1 e2).2.1.status = "RESERVED" ∧
    (raceBothReadFirst s e1 e2).2.2.status = "RESERVED" ∧
    storeGet (raceBothReadFirst s e1 e2).1 p = some (-1) := by
  unfold raceBothReadFirst
  rw [h1p, h2p, hs]
  unfold reserveAfterRead
  rw [h1p, h2p, h1q, h2q]
  norm_num
  rw [storeGet_updateDec_self, storeGet_updateDec_self, hs]
  norm_num [publishInventoryReserved]

/-- Witness for `c2_amended_race_both_succeed` at the concrete store
`[(5, 1)]` and two unit orders for product 5. -/
theorem c2_amended_race_both_succeed_witness :
    ((⟨201, 7, 5, 1, 0⟩ : OrderCreatedEvent).productID = 5 ∧
      (⟨202, 8, 5, 1, 0⟩ : OrderCreatedEvent).productID = 5 ∧
      (⟨201, 7, 5, 1, 0⟩ : OrderCreatedEvent).quantity = 1 ∧
      (⟨202, 8, 5, 1, 0⟩ : OrderCreatedEvent).quantity = 1 ∧
      storeGet [((5 : Int), (1 : Int))] 5 = some 1) ∧
    ((raceBothReadFirst [((5 : Int), (1 : Int))]
        ⟨201, 7, 5, 1, 0⟩ ⟨202, 8, 5, 1, 0⟩).2.1.status = "RESERVED" ∧
      (raceBothReadFirst [((5 : Int), (1 : Int))]
        ⟨201, 7, 5, 1, 0⟩ ⟨202, 8, 5, 1, 0⟩).2.2.status = "RESERVED" ∧
      storeGet (raceBothReadFirst [((5 : Int), (1 : Int))]
        ⟨201, 7, 5, 1, 0⟩ ⟨202, 8, 5, 1, 0⟩).1 5 = some (-1)) :=
  ⟨⟨rfl, rfl, rfl, rfl, by decide⟩,
    c2_amended_race_both_succeed [((5 : Int), (1 : Int))] 5
      ⟨201, 7, 5, 1, 0⟩ ⟨202, 8, 5, 1, 0⟩ rfl rfl rfl rfl (by decide)⟩

/-- Claim C3: whenever the ordered product exists with stored quantity Q at
least the ordered quantity, the iteration publishes a RESERVED outcome and the
stored quantity afterwards is Q minus the ordered quantity. -/
theorem c3_reserved_decrements (s : Store) (e : OrderCreatedEvent) (Q : Int)
    (hget : storeGet s e.productID = some Q) (hQ : e.quantity ≤ Q) :
    (processEvent s e false false).outcome =
      publishInventoryReserved e.orderID "Reserved successfully" ∧
    storeGet (processEvent s e false false).store e.productID =
      some (Q - e.quantity) := by
  unfold processEvent
  simp only [Bool.false_eq_true, if_false, hget, ge_iff_le, hQ, if_pos, if_true]
  exact ⟨trivial, by rw [storeGet_updateDec_self, hget]; rfl⟩

/-- Witness for `c3_reserved_decrements`: Scenario 1 of the spec — product 42
with quantity 10, order of 5 gives RESERVED and quantity 5. -/
theorem c3_reserved_decrements_witness :
    (storeGet [((42 : Int), (10 : Int))]
        (⟨1, 1, 42, 5, 0⟩ : OrderCreatedEvent).productID = some 10 ∧
      (⟨1, 1, 42, 5, 0⟩ : OrderCreatedEvent).quantity ≤ 10) ∧
    ((processEvent [((42 : Int), (10 : Int))] ⟨1, 1, 42, 5, 0⟩
        false false).outcome =
      publishInventoryReserved 1 "Reserved successfully" ∧
    storeGet (processEvent [((42 : Int), (10 : Int))] ⟨1, 1, 42, 5, 0⟩
        false false).store (⟨1, 1, 42, 5, 0⟩ : OrderCreatedEvent).productID =
      some (10 - 5)) :=
  ⟨⟨by decide, by decide⟩,
    c3_reserved_decrements [((42 : Int), (10 : Int))] ⟨1, 1, 42, 5, 0⟩ 10
      (by decide) (by decide)⟩

end InventoryService

namespace InventoryService

theorem processEvent_reserved_eq (s : Store) (e : OrderCreatedEvent) (Q : Int)
    (hget : storeGet s e.productID = some Q) (hQ : e.quantity ≤ Q) :
    processEvent s e false false =
      ⟨updateDec s e.productID e.quantity, true,
        publishInventoryReserved e.orderID "Reserved successfully"⟩ := by
  unfold processEvent
  simp [hget, ge_iff_le, hQ]

/-- Claim C4: a rejected order event leaves the store unchanged and the
published outcome carries the matching reason — FAILED "Not enough stock"
when the product exists with too little quantity, FAILED "Product not found"
when the product is unknown. -/
theorem c4_rejection_store_unchanged (s : Store) (e : OrderCreatedEvent)
    (fu : Bool)
    (h : storeGet s e.productID = none ∨
      ∃ Q, storeGet s e.productID = some Q ∧ Q < e.quantity) :
    (processEvent s e false fu).store = s ∧
    (processEvent s e false fu).outcome =
      (match storeGet s e.productID with
        | none => publishInventoryFailed e.orderID "Product not found"
        | some _ => publishInventoryFailed e.orderID "Not enough stock") := by
  unfold processEvent
  rcases h with h | ⟨Q, hget, hlt⟩
  · simp [h]
  · have hq : ¬ (Q ≥ e.quantity) := not_le.mpr hlt
    simp [hget, hq]

/-- Witness for `c4_rejection_store_unchanged`: Scenario 2 of the spec —
product 42 with quantity 3, order of 5 gives FAILED "Not enough stock" and an
unchanged store. -/
theorem c4_rejection_store_unchanged_witness :
    (storeGet [((42 : Int), (3 : Int))]
        (⟨2, 1, 42, 5, 0⟩ : OrderCreatedEvent).productID = none ∨
      ∃ Q, storeGet [((42 : Int), (3 : Int))]
          (⟨2, 1, 42, 5, 0⟩ : OrderCreatedEvent).productID = some Q ∧
        Q < (⟨2, 1, 42, 5, 0⟩ : OrderCreatedEvent).quantity) ∧
    ((processEvent [((42 : Int), (3 : Int))] ⟨2, 1, 42, 5, 0⟩
        false false).store = [((42 : Int), (3 : Int))] ∧
      (processEvent [((42 : Int), (3 : Int))] ⟨2, 1, 42, 5, 0⟩
        false false).outcome = publishInventoryFailed 2 "Not enough stock") := by
  have h := c4_rejection_store_unchanged [((42 : Int), (3 : Int))]
    ⟨2, 1, 42, 5, 0⟩ false (Or.inr ⟨3, by decide, by decide⟩)
  exact ⟨Or.inr ⟨3, by decide, by decide⟩, h.1, h.2⟩

/-- Claim C5 counterexample: the nonnegativity invariant is not preserved by
the HTTP update handler — a PUT whose body carries quantity -5 commits a
negative quantity for product 42. -/
theorem c5_counterexample :
    storeNonneg [((42 : Int), (5 : Int))] ∧
    ¬ storeNonneg (updateInventory [((42 : Int), (5 : Int))] 42 ⟨42, -5⟩) := by
  decide

/-- Claim C5 amended: every committed state reachable through the consumer
loop's reservation decrement keeps quantity ≥ 0 (given the table keys are
unique), but the HTTP update and create handlers write the request-supplied
quantity without validation and can commit negative quantities. -/
theorem c5_amended_nonneg (s : Store) (e : OrderCreatedEvent)
    (selectFails updateFails : Bool) (hn : storeNonneg s) (hk : keysNodup s) :
    storeNonneg (processEvent s e selectFails updateFails).store ∧
    ¬ storeNonneg (updateInventory [((42 : Int), (5 : Int))] 42 ⟨42, -5⟩) ∧
    ¬ storeNonneg (createInventory [] ⟨1, -1⟩) := by
  refine ⟨?_, by decide, by decide⟩
  unfold processEvent
  cases selectFails with
  | true => simpa using hn
  | false =>
      cases hg : storeGet s e.productID with
      | none => simpa using hn
      | some q =>
          by_cases hq : q ≥ e.quantity
          · cases updateFails with
            | true => simpa [hq] using hn
            | false =>
                simp only [Bool.false_eq_true, if_false, ge_iff_le, hq, if_true]
                exact storeNonneg_updateDec s e.productID e.quantity q hn hk hg hq
          · simpa [hq] using hn

/-- Witness for `c5_amended_nonneg` at the nonnegative one-row store
`[(42, 3)]` with unique keys and an order of 2 units for product 42. -/
theorem c5_amended_nonneg_witness :
    (storeNonneg [((42 : Int), (3 : Int))] ∧
      keysNodup [((42 : Int), (3 : Int))]) ∧
    (storeNonneg (processEvent [((42 : Int), (3 : Int))] ⟨1, 1, 42, 2, 0⟩
        false false).store ∧
      ¬ storeNonneg (updateInventory [((42 : Int), (5 : Int))] 42 ⟨42, -5⟩) ∧
      ¬ storeNonneg (createInventory [] ⟨1, -1⟩)) :=
  ⟨⟨by decide, by decide⟩,
    c5_amended_nonneg [((42 : Int), (3 : Int))] ⟨1, 1, 42, 2, 0⟩ false false
      (by decide) (by decide)⟩

/-- Claim C6 counterexample: redelivering the same OrderCreatedEvent
(orderID 7, product 42, quantity 3, stock 10) makes both iterations publish
RESERVED and decrements the stock twice, from 10 to 4 — the net decrement for
orderID 7 is applied twice, not at most once. -/
theorem c6_counterexample :
    (processEvent [((42 : Int), (10 : Int))] ⟨7, 1, 42, 3, 0⟩
        false false).outcome.status = "RESERVED" ∧
    (processEvent (processEvent [((42 : Int), (10 : Int))] ⟨7, 1, 42, 3, 0⟩
        false false).store ⟨7, 1, 42, 3, 0⟩ false false).outcome.status
      = "RESERVED" ∧
    storeGet (processEvent (processEvent [((42 : Int), (10 : Int))]
        ⟨7, 1, 42, 3, 0⟩ false false).store ⟨7, 1, 42, 3, 0⟩ false false).store
      42 = some 4 := by
  decide

/-- Claim C6 amended: the consumer keeps no record of processed orderIDs, so a
duplicate redelivery whose stock check passes applies the net decrement again:
starting from quantity Q with Q ≥ q and Q - q ≥ q, processing the same event
twice publishes RESERVED twice and leaves Q - q - q. -/
theorem c6_amended_replay_decrements_again (s : Store) (e : OrderCreatedEvent)
    (Q : Int) (hget : storeGet s e.productID = some Q)
    (h1 : e.quantity ≤ Q) (h2 : e.quantity ≤ Q - e.quantity) :
    (processEvent s e false false).outcome.status = "RESERVED" ∧
    (processEvent (processEvent s e false false).store e
        false false).outcome.status = "RESERVED" ∧
    storeGet (processEvent (processEvent s e false false).store e
        false false).store e.productID = some (Q - e.quantity - e.quantity) := by
  have hstep1 := processEvent_reserved_eq s e Q hget h1
  have hs1 : storeGet (processEvent s e false false).store e.productID
      = some (Q - e.quantity) := by
    rw [hstep1]
    show storeGet (updateDec s e.productID e.quantity) e.productID = _
    rw [storeGet_updateDec_self, hget]
    rfl
  have hstep2 := processEvent_reserved_eq (processEvent s e false false).store e
    (Q - e.quantity) hs1 h2
  refine ⟨by rw [hstep1]; rfl, by rw [hstep2]; rfl, ?_⟩
  rw [hstep2]
  show storeGet (updateDec (processEvent s e false false).store
      e.productID e.quantity) e.productID = _
  rw [storeGet_updateDec_self, hs1]
  rfl

/-- Witness for `c6_amended_replay_decrements_again`: stock 10, duplicate
deliveries of an order for 3 units of product 42. -/
theorem c6_amended_replay_decrements_again_witness :
    (storeGet [((42 : Int), (10 : Int))]
        (⟨7, 1, 42, 3, 0⟩ : OrderCreatedEvent).productID = some 10 ∧
      (⟨7, 1, 42, 3, 0⟩ : OrderCreatedEvent).quantity ≤ 10 ∧
      (⟨7, 1, 42, 3, 0⟩ : OrderCreatedEvent).quantity ≤ 10 - 3) ∧
    ((processEvent [((42 : Int), (10 : Int))] ⟨7, 1, 42, 3, 0⟩
        false false).outcome.status = "RESERVED" ∧
      (processEvent (processEvent [((42 : Int), (10 : Int))] ⟨7, 1, 42, 3, 0⟩
        false false).store ⟨7, 1, 42, 3, 0⟩ false false).outcome.status
        = "RESERVED" ∧
      storeGet (processEvent (processEvent [((42 : Int), (10 : Int))]
        ⟨7, 1, 42, 3, 0⟩ false false).store ⟨7, 1, 42, 3, 0⟩ false false).store
        (⟨7, 1, 42, 3, 0⟩ : OrderCreatedEvent).productID
        = some (10 - 3 - 3)) :=
  ⟨⟨by decide, by decide, by decide⟩,
    c6_amended_replay_decrements_again [((42 : Int), (10 : Int))]
      ⟨7, 1, 42, 3, 0⟩ 10 (by decide) (by decide) (by decide)⟩

end InventoryService

namespace InventoryService

/-- Claim C7 counterexample: an event with non-positive quantity (-2) for
product 42 with stock 5 is NOT rejected with FAILED "invalid event": the
iteration reads the store, passes the check (5 ≥ -2), applies the unconditional
update (raising the stock to 7) and publishes RESERVED. -/
theorem c7_counterexample :
    (processEvent [((42 : Int), (5 : Int))] ⟨9, 1, 42, -2, 0⟩
        false false).outcome =
      ⟨9, "RESERVED", "Reserved successfully"⟩ ∧
    (processEvent [((42 : Int), (5 : Int))] ⟨9, 1, 42, -2, 0⟩
        false false).store = [((42 : Int), (7 : Int))] := by
  decide

/-- Claim C7 amended: the consumer performs no event-shape validation; an
event with non-positive quantity whose product exists with nonnegative stock
always passes the stock check, mutates the store through the unconditional
update, and publishes RESERVED — no outcome with message "invalid event"
exists in the code. -/
theorem c7_amended_no_shape_validation (s : Store) (e : OrderCreatedEvent)
    (Q : Int) (hq : e.quantity ≤ 0)
    (hget : storeGet s e.productID = some Q) (hQ : 0 ≤ Q) :
    (processEvent s e false false).outcome =
      publishInventoryReserved e.orderID "Reserved successfully" ∧
    (processEvent s e false false).store = updateDec s e.productID e.quantity ∧
    (processEvent s e false false).outcome.message ≠ "invalid event" := by
  have h := processEvent_reserved_eq s e Q hget (hq.trans hQ)
  rw [h]
  refine ⟨rfl, rfl, ?_⟩
  show "Reserved successfully" ≠ "invalid event"
  decide

/-- Witness for `c7_amended_no_shape_validation`: a zero-quantity order for
product 42 with stock 5. -/
theorem c7_amended_no_shape_validation_witness :
    ((⟨9, 1, 42, 0, 0⟩ : OrderCreatedEvent).quantity ≤ 0 ∧
      storeGet [((42 : Int), (5 : Int))]
        (⟨9, 1, 42, 0, 0⟩ : OrderCreatedEvent).productID = some 5 ∧
      (0 : Int) ≤ 5) ∧
    ((processEvent [((42 : Int), (5 : Int))] ⟨9, 1, 42, 0, 0⟩
        false false).outcome =
      publishInventoryReserved 9 "Reserved successfully" ∧
    (processEvent [((42 : Int), (5 : Int))] ⟨9, 1, 42, 0, 0⟩
        false false).store =
      updateDec [((42 : Int), (5 : Int))]
        (⟨9, 1, 42, 0, 0⟩ : OrderCreatedEvent).productID
        (⟨9, 1, 42, 0, 0⟩ : OrderCreatedEvent).quantity ∧
    (processEvent [((42 : Int), (5 : Int))] ⟨9, 1, 42, 0, 0⟩
        false false).outcome.message ≠ "invalid event") :=
  ⟨⟨by decide, by decide, by decide⟩,
    c7_amended_no_shape_validation [((42 : Int), (5 : Int))] ⟨9, 1, 42, 0, 0⟩ 5
      (by decide) (by decide) (by decide)⟩

/-- Claim C8 counterexample: when the reservation's store UPDATE fails for an
infrastructure reason, the published outcome is FAILED "Cannot reserve
inventory" — not FAILED "transient error" — and when the SELECT fails, the
outcome is FAILED "Product not found", conflated with the unknown-product
rejection. -/
theorem c8_counterexample :
    (processEvent [((42 : Int), (10 : Int))] ⟨3, 1, 42, 5, 0⟩
        false true).outcome =
      ⟨3, "FAILED", "Cannot reserve inventory"⟩ ∧
    "Cannot reserve inventory" ≠ "transient error" ∧
    (processEvent [((42 : Int), (10 : Int))] ⟨3, 1, 42, 5, 0⟩
        true false).outcome =
      ⟨3, "FAILED", "Product not found"⟩ := by
  decide

/-- Claim C8 amended: store-operation failures are not reported as
FAILED "transient error"; a failed SELECT takes the "Product not found"
branch (indistinguishable from an unknown product) and a failed UPDATE
produces FAILED "Cannot reserve inventory", in both cases leaving the store
unchanged and with no retry. -/
theorem c8_amended_infra_failure_messages (s : Store) (e : OrderCreatedEvent)
    (fu : Bool) (Q : Int) :
    ((processEvent s e true fu).outcome =
        publishInventoryFailed e.orderID "Product not found" ∧
      (processEvent s e true fu).store = s) ∧
    (storeGet s e.productID = some Q → e.quantity ≤ Q →
      (processEvent s e false true).outcome =
        publishInventoryFailed e.orderID "Cannot reserve inventory" ∧
      (processEvent s e false true).store = s) := by
  constructor
  · unfold processEvent
    exact ⟨rfl, rfl⟩
  · intro hget hQ
    unfold processEvent
    simp [hget, ge_iff_le, hQ]

/-- Witness for `c8_amended_infra_failure_messages`: product 42 with stock 10
and an order of 5, with each kind of store failure injected. -/
theorem c8_amended_infra_failure_messages_witness :
    (storeGet [((42 : Int), (10 : Int))]
        (⟨3, 1, 42, 5, 0⟩ : OrderCreatedEvent).productID = some 10 ∧
      (⟨3, 1, 42, 5, 0⟩ : OrderCreatedEvent).quantity ≤ 10) ∧
    (((processEvent [((42 : Int), (10 : Int))] ⟨3, 1, 42, 5, 0⟩
        true false).outcome = publishInventoryFailed 3 "Product not found" ∧
      (processEvent [((42 : Int), (10 : Int))] ⟨3, 1, 42, 5, 0⟩
        true false).store = [((42 : Int), (10 : Int))]) ∧
    (storeGet [((42 : Int), (10 : Int))]
        (⟨3, 1, 42, 5, 0⟩ : OrderCreatedEvent).productID = some 10 →
      (⟨3, 1, 42, 5, 0⟩ : OrderCreatedEvent).quantity ≤ 10 →
      (processEvent [((42 : Int), (10 : Int))] ⟨3, 1, 42, 5, 0⟩
        false true).outcome =
        publishInventoryFailed 3 "Cannot reserve inventory" ∧
      (processEvent [((42 : Int), (10 : Int))] ⟨3, 1, 42, 5, 0⟩
        false true).store = [((42 : Int), (10 : Int))])) :=
  ⟨⟨by decide, by decide⟩,
    c8_amended_infra_failure_messages [((42 : Int), (10 : Int))]
      ⟨3, 1, 42, 5, 0⟩ false 10⟩

/-- Claim C9 counterexample: the caller-visible result of running the publish
functions is identical whether the underlying Kafka write fails or succeeds —
the write error is discarded inside the publisher, so a failure is not
reported back to the consumer loop. -/
theorem c9_counterexample :
    publishInventoryReservedRun 1 "Reserved successfully"
        (Except.error "broker unreachable") =
      publishInventoryReservedRun 1 "Reserved successfully" (Except.ok ()) ∧
    publishInventoryFailedRun 1 "Not enough stock"
        (Except.error "broker unreachable") =
      publishInventoryFailedRun 1 "Not enough stock" (Except.ok ()) :=
  ⟨rfl, rfl⟩

/-- Claim C9 amended: both publish functions assign the write result to the
blank identifier and return nothing, so the caller-visible effect of a publish
is independent of whether the underlying write succeeded — failures are
discarded inside the publisher, not reported to the Order Consumer Loop. -/
theorem c9_amended_publish_discards_write_errors (orderID : Int)
    (message : String) (w1 w2 : Except String Unit) :
    publishInventoryReservedRun orderID message w1 =
      publishInventoryReservedRun orderID message w2 ∧
    publishInventoryFailedRun orderID message w1 =
      publishInventoryFailedRun orderID message w2 :=
  ⟨rfl, rfl⟩

/-- Claim C10: for every GET of an existing product, the response's available
field is true exactly when the stored quantity is strictly positive, and its
quantity field equals the stored quantity. -/
theorem c10_get_inventory_fields (s : Store) (pid q : Int)
    (r : GetInventoryResponse)
    (hget : storeGet s pid = some q) (hr : getInventory s pid = some r) :
    (r.available = true ↔ 0 < q) ∧ r.quantity = q := by
  unfold getInventory at hr
  rw [hget] at hr
  cases hr
  constructor
  · simp [GT.gt]
  · rfl

/-- Witness for `c10_get_inventory_fields`: product 42 stored with quantity 3
answers available = true and quantity = 3. -/
theorem c10_get_inventory_fields_witness :
    (storeGet [((42 : Int), (3 : Int))] 42 = some 3 ∧
      getInventory [((42 : Int), (3 : Int))] 42 = some ⟨true, 3⟩) ∧
    (((⟨true, 3⟩ : GetInventoryResponse).available = true ↔ (0 : Int) < 3) ∧
      (⟨true, 3⟩ : GetInventoryResponse).quantity = 3) :=
  ⟨⟨by decide, by decide⟩,
    c10_get_inventory_fields [((42 : Int), (3 : Int))] 42 3 ⟨true, 3⟩
      (by decide) (by decide)⟩

end InventoryService
